import Mathlib

/-!
Verification of the slip-angle computation core of the slide-guide repository,
shallowly embedded from `src/examples/calculate_slip_angles.py`.

Strings are embedded as `List Char` (a Python `str` is a sequence of
characters).  Python floats are embedded as exact rationals (`ℚ`) in the
decoder and as real numbers (`ℝ`) in the slip-angle arithmetic; a pandas
DataFrame is embedded as a list of rows, each row an association list from
column names to cell values.
-/

namespace SlideGuide

/-! ## Array Signal Decoder (`SlipAngleCalculator.parse_velocity_array`) -/

/-- The character set of Python `str.strip('[]"')`: leading and trailing
brackets and double quotes are removed. -/
def stripChars : List Char := ['[', ']', '"']

/-- Python `s.strip(set)`: drop characters of `set` from both ends.
Embedded as `dropWhile` on the list and on its reverse. -/
def pyStrip (cs : List Char) (s : List Char) : List Char :=
  ((s.dropWhile (fun c => cs.contains c)).reverse.dropWhile
      (fun c => cs.contains c)).reverse

/-- Python `s.replace('"', '')`: remove every double-quote character. -/
def removeQuotes (s : List Char) : List Char :=
  s.filter (fun c => c != '"')

/-- Python `s.split(';')`.  On the empty string this yields `[""]`,
matching `''.split(';') == ['']`. -/
def splitSemi : List Char → List (List Char)
  | [] => [[]]
  | c :: r =>
    let rest := splitSemi r
    if c = ';' then [] :: rest
    else (c :: rest.headD []) :: rest.tail

/-- Truthiness of Python `v.strip()`: a token is kept by the comprehension
`[float(v) for v in cleaned if v.strip()]` iff it contains a
non-whitespace character. -/
def keepTok (t : List Char) : Bool :=
  t.any (fun c => !c.isWhitespace)

/-- Numeric value of a list of decimal digit characters. -/
def natOfDigits (ds : List Char) : ℕ :=
  ds.foldl (fun a c => 10 * a + (c.toNat - 48)) 0

/-- Exponent suffix of a Python float literal: empty means exponent `0`;
otherwise `e`/`E`, an optional sign and at least one digit, consuming the
whole remainder. -/
def parseExpPart : List Char → Option ℤ
  | [] => some (0 : ℤ)
  | c :: r =>
    if c = 'e' ∨ c = 'E' then
      let p : ℤ × List Char :=
        match r with
        | '-' :: r' => (-1, r')
        | '+' :: r' => (1, r')
        | _ => (1, r)
      let ds := p.2.takeWhile Char.isDigit
      if ds ≠ [] ∧ p.2.dropWhile Char.isDigit = [] then
        some (p.1 * (natOfDigits ds : ℤ))
      else none
    else none

/-- Mantissa of a Python float literal: `digits [. digits]` or `. digits`,
returning its value and the unconsumed remainder. -/
def parseMantissa (s : List Char) : Option (ℚ × List Char) :=
  let ip := s.takeWhile Char.isDigit
  let r := s.dropWhile Char.isDigit
  match r with
  | '.' :: r2 =>
    let fp := r2.takeWhile Char.isDigit
    let r3 := r2.dropWhile Char.isDigit
    if ip = [] ∧ fp = [] then none
    else some ((natOfDigits ip : ℚ) + (natOfDigits fp : ℚ) / 10 ^ fp.length, r3)
  | _ => if ip = [] then none else some ((natOfDigits ip : ℚ), r)

/-- Model of Python `float(v)` on the decimal-literal fragment actually
produced by telemetry: surrounding whitespace, an optional sign, a decimal
mantissa and an optional exponent.  (The special literals `inf`/`nan` and
digit-group underscores are outside the modelled fragment.)  A malformed
token yields `none`, standing for the `ValueError` that the source catches. -/
def pyFloat? (s : List Char) : Option ℚ :=
  let t := (s.dropWhile Char.isWhitespace).reverse.dropWhile Char.isWhitespace
    |>.reverse
  let p : ℚ × List Char :=
    match t with
    | '-' :: r => (-1, r)
    | '+' :: r => (1, r)
    | _ => (1, t)
  match p.2 with
  | [] => none
  | _ =>
    match parseMantissa p.2 with
    | none => none
    | some (m, rest) =>
      match parseExpPart rest with
      | none => none
      | some e => some (p.1 * m * (10 : ℚ) ^ e)

/-- The helper `mapMOpt f l` models a Python list comprehension mapping `f` over `l`
inside a `try` block: the first failing element aborts the whole
comprehension with `none`. -/
def mapMOpt (f : α → Option β) : List α → Option (List β)
  | [] => some []
  | a :: l =>
    match f a with
    | none => none
    | some b => (mapMOpt f l).map (fun bs => b :: bs)

/-- The cleaned token list of `parse_velocity_array`:
`str(velocity_str).strip('[]"').replace('"', '').split(';')` with
whitespace-only tokens discarded by the comprehension guard. -/
def keptTokens (s : List Char) : List (List Char) :=
  (splitSemi (removeQuotes (pyStrip stripChars s))).filter keepTok

/-- The decoder `SlipAngleCalculator.parse_velocity_array`.  A `none` input models a cell
for which `pd.isna` holds; the result `none` models the Python `None`
("no value").  The guarded comprehension plus `values[-1] if values else
None` inside `try/except` becomes `mapMOpt` followed by `getLast?`. -/
def parse_velocity_array (input : Option (List Char)) : Option ℚ :=
  match input with
  | none => none
  | some s =>
    if s = [] then none
    else
      match mapMOpt pyFloat? (keptTokens s) with
      | none => none
      | some values => values.getLast?

/-- Characters that can occur in a decimal float literal; they are disjoint
from the bracket/quote strip set, from the `;` separator and from
whitespace. -/
def isFloatChar (c : Char) : Bool :=
  c.isDigit || c = '.' || c = '-' || c = '+' || c = 'e' || c = 'E'

/-- Builds the body of an encoded array signal: tokens joined by `;`. -/
def joinSemi : List (List Char) → List Char
  | [] => []
  | [t] => t
  | t :: t' :: ts => t ++ ';' :: joinSemi (t' :: ts)

/-! ## Vehicle geometry (`SlipAngleCalculator.__init__`) -/

/-- The spec's `ConfigurationError` (§7). -/
inductive ConfigurationError where
  | invalidGeometry : ConfigurationError
deriving DecidableEq

/-- The state built by `SlipAngleCalculator.__init__`: the stored vehicle
geometry.  `wheelbase_front = wheelbase * cg_position_pct` and
`wheelbase_rear = wheelbase * (1 - cg_position_pct)` exactly as in the
source. -/
structure SlipAngleCalculator where
  wheelbase : ℝ
  track_width : ℝ
  wheelbase_front : ℝ
  wheelbase_rear : ℝ
  steering_ratio : ℝ

/-- The field assignments of `SlipAngleCalculator.__init__`. -/
noncomputable def mkSlipAngleCalculator
    (wheelbase track_width cg_position_pct steering_ratio : ℝ) :
    SlipAngleCalculator :=
  { wheelbase := wheelbase
    track_width := track_width
    wheelbase_front := wheelbase * cg_position_pct
    wheelbase_rear := wheelbase * (1 - cg_position_pct)
    steering_ratio := steering_ratio }

/-- The constructor `SlipAngleCalculator.__init__` as a fallible constructor (a Python
`__init__` may raise).  The source performs no parameter validation, so
every input produces `Except.ok`; the print statements are side effects
with no bearing on the state and are not modelled. -/
noncomputable def slipAngleCalculator_init
    (wheelbase track_width cg_position_pct steering_ratio : ℝ) :
    Except ConfigurationError SlipAngleCalculator :=
  Except.ok (mkSlipAngleCalculator wheelbase track_width cg_position_pct steering_ratio)

/-- Modelled from the spec (§4.2), for comparison with the source
constructor: construction "must reject non-positive
wheelbase/track-width/steering-ratio and CG fraction outside (0,1) with a
`ConfigurationError`". -/
noncomputable def vehicleGeometry_spec_init
    (wheelbase track_width cg_position_pct steering_ratio : ℝ) :
    Except ConfigurationError SlipAngleCalculator :=
  if 0 < wheelbase ∧ 0 < track_width ∧ 0 < steering_ratio ∧
      0 < cg_position_pct ∧ cg_position_pct < 1 then
    Except.ok (mkSlipAngleCalculator wheelbase track_width cg_position_pct steering_ratio)
  else
    Except.error ConfigurationError.invalidGeometry

/-! ## Slip-angle formulas (`calc_front_slip`, `calc_rear_slip`) -/

/-- Numpy `arctan2 y x` on the reals (no signed zeros): principal-value
two-argument arctangent, `0` at the origin. -/
noncomputable def atan2 (y x : ℝ) : ℝ :=
  if 0 < x then Real.arctan (y / x)
  else if x < 0 then
    (if 0 ≤ y then Real.arctan (y / x) + Real.pi
     else Real.arctan (y / x) - Real.pi)
  else if 0 < y then Real.pi / 2
  else if y < 0 then -(Real.pi / 2)
  else 0

/-- Numpy `degrees`: radians to degrees. -/
noncomputable def degrees (x : ℝ) : ℝ :=
  x * (180 / Real.pi)

/-- Elementwise body of `SlipAngleCalculator.calc_front_slip`: the source
initialises the result to `0`, masks on `np.abs(vx) > 0.5`, and assigns
`steering_angle - beta - yaw_rate * wheelbase_front / vx` (with
`beta = arctan2(vy, vx)`) only on masked elements. -/
noncomputable def front_slip_sample (c : SlipAngleCalculator)
    (vx vy yaw_rate steering_angle : ℝ) : ℝ :=
  if 0.5 < |vx| then
    steering_angle - atan2 vy vx - yaw_rate * c.wheelbase_front / vx
  else 0

/-- Elementwise body of `SlipAngleCalculator.calc_rear_slip`:
`-arctan2(vy - yaw_rate * wheelbase_rear, vx)` under the same
`np.abs(vx) > 0.5` mask, `0` elsewhere. -/
noncomputable def rear_slip_sample (c : SlipAngleCalculator)
    (vx vy yaw_rate : ℝ) : ℝ :=
  let vy_rear := vy - yaw_rate * c.wheelbase_rear
  if 0.5 < |vx| then -(atan2 vy_rear vx) else 0

/-- Four-list zip, for the vectorised front-slip computation. -/
def zipWith4R (f : α → β → γ → δ → ε) :
    List α → List β → List γ → List δ → List ε
  | a :: as, b :: bs, c :: cs, d :: ds => f a b c d :: zipWith4R f as bs cs ds
  | _, _, _, _ => []

/-- Three-list zip, for the vectorised rear-slip computation. -/
def zipWith3R (f : α → β → γ → δ) : List α → List β → List γ → List δ
  | a :: as, b :: bs, c :: cs => f a b c :: zipWith3R f as bs cs
  | _, _, _ => []

/-- The source `SlipAngleCalculator.calc_front_slip` on whole columns. -/
noncomputable def calc_front_slip (c : SlipAngleCalculator)
    (vx vy yaw_rate steering_angle : List ℝ) : List ℝ :=
  zipWith4R (front_slip_sample c) vx vy yaw_rate steering_angle

/-- The source `SlipAngleCalculator.calc_rear_slip` on whole columns. -/
noncomputable def calc_rear_slip (c : SlipAngleCalculator)
    (vx vy yaw_rate : List ℝ) : List ℝ :=
  zipWith3R (rear_slip_sample c) vx vy yaw_rate

/-! ## DataFrame embedding

A pandas DataFrame is embedded as a list of rows; a row is an association
list from column names to cell values.  A cell is `na` (pandas NaN /
missing), a string, or a number.  Column assignment `df[k] = series` is a
per-row write; a write shadows any earlier binding of the same key, which
models in-place overwriting of a column. -/

/-- A DataFrame cell. -/
inductive Val where
  | na : Val
  | str : List Char → Val
  | num : ℝ → Val

/-- A DataFrame row. -/
abbrev Row := List (String × Val)

/-- Reading cell `k` of a row: the most recent write wins.  A missing
column reads as `na`. -/
def getCell : Row → String → Val
  | [], _ => Val.na
  | (k', v) :: r, k => if k = k' then v else getCell r k

/-- Writing cell `k` of a row. -/
def setCell (r : Row) (k : String) (v : Val) : Row :=
  (k, v) :: r

/-- Column `k` of a DataFrame. -/
def getColumn (df : List Row) (k : String) : List Val :=
  df.map (fun r => getCell r k)

/-- The assignment `df[k] = series`: positional assignment of a whole column. -/
def setColumn (df : List Row) (k : String) (vals : List Val) : List Row :=
  List.zipWith (fun r v => setCell r k v) df vals

/-- Decoding one cell with `parse_velocity_array`.  An `na` cell is the
`pd.isna` case; a numeric cell passes through `str(float)` and back, which
is the identity on the modelled values. -/
noncomputable def decodeCell : Val → Option ℝ
  | Val.na => none
  | Val.str s => (parse_velocity_array (some s)).map (fun q => (q : ℝ))
  | Val.num x => some x

/-- Packing the decode result into a cell (`None` becomes pandas NaN). -/
noncomputable def valOfOpt : Option ℝ → Val
  | none => Val.na
  | some x => Val.num x

/-- Pandas `series.fillna(0)` on one cell. -/
noncomputable def fillnaZero : Val → Val
  | Val.na => Val.num 0
  | v => v

/-- Numeric reading of a cell, for columns the source uses arithmetically
(such columns hold numbers by the time they are read). -/
noncomputable def asNum : Val → ℝ
  | Val.num x => x
  | _ => 0

/-- The source `SlipAngleCalculator.calculate_slip_angles`, line by line: decode the
three array columns, fill NaN with 0, derive the road-wheel angle, the
body slip angle (with its `fillna(0)`), the masked front/rear slip angles,
the degree conversions and the balance column.  The `print` calls are side
effects and are not modelled. -/
noncomputable def calculate_slip_angles (c : SlipAngleCalculator)
    (df : List Row) : List Row :=
  let df1 := setColumn df "vx"
    ((getColumn df "VelocityX").map (fun v => valOfOpt (decodeCell v)))
  let df2 := setColumn df1 "vy"
    ((getColumn df1 "VelocityY").map (fun v => valOfOpt (decodeCell v)))
  let df3 := setColumn df2 "yaw_rate"
    ((getColumn df2 "YawRate").map (fun v => valOfOpt (decodeCell v)))
  let df4 := setColumn df3 "vx" ((getColumn df3 "vx").map fillnaZero)
  let df5 := setColumn df4 "vy" ((getColumn df4 "vy").map fillnaZero)
  let df6 := setColumn df5 "yaw_rate" ((getColumn df5 "yaw_rate").map fillnaZero)
  let df7 := setColumn df6 "steering_angle"
    ((getColumn df6 "SteeringWheelAngle").map
      (fun v => Val.num (asNum v / c.steering_ratio)))
  let df8 := setColumn df7 "body_slip_angle"
    (List.zipWith (fun vy vx => Val.num (atan2 (asNum vy) (asNum vx)))
      (getColumn df7 "vy") (getColumn df7 "vx"))
  let df9 := setColumn df8 "body_slip_angle"
    ((getColumn df8 "body_slip_angle").map fillnaZero)
  let df10 := setColumn df9 "slip_angle_front"
    ((calc_front_slip c
        ((getColumn df9 "vx").map asNum) ((getColumn df9 "vy").map asNum)
        ((getColumn df9 "yaw_rate").map asNum)
        ((getColumn df9 "steering_angle").map asNum)).map Val.num)
  let df11 := setColumn df10 "slip_angle_rear"
    ((calc_rear_slip c
        ((getColumn df10 "vx").map asNum) ((getColumn df10 "vy").map asNum)
        ((getColumn df10 "yaw_rate").map asNum)).map Val.num)
  let df12 := setColumn df11 "slip_angle_front_deg"
    ((getColumn df11 "slip_angle_front").map (fun v => Val.num (degrees (asNum v))))
  let df13 := setColumn df12 "slip_angle_rear_deg"
    ((getColumn df12 "slip_angle_rear").map (fun v => Val.num (degrees (asNum v))))
  let df14 := setColumn df13 "body_slip_angle_deg"
    ((getColumn df13 "body_slip_angle").map (fun v => Val.num (degrees (asNum v))))
  setColumn df14 "balance"
    (List.zipWith (fun f r => Val.num (asNum f - asNum r))
      (getColumn df14 "slip_angle_front_deg") (getColumn df14 "slip_angle_rear_deg"))

/-- The per-sample form of the calculation (the spec's §4.3 view): one row
in, the same row augmented with the derived cells, in the same write
order as the vectorised source.  Each sample's result depends only on
that row's original cells and the geometry. -/
noncomputable def augment_row (c : SlipAngleCalculator) (r : Row) : Row :=
  let ovx := decodeCell (getCell r "VelocityX")
  let ovy := decodeCell (getCell r "VelocityY")
  let oyaw := decodeCell (getCell r "YawRate")
  let vx := ovx.getD 0
  let vy := ovy.getD 0
  let yaw := oyaw.getD 0
  let st := asNum (getCell r "SteeringWheelAngle") / c.steering_ratio
  let body := atan2 vy vx
  let front := front_slip_sample c vx vy yaw st
  let rear := rear_slip_sample c vx vy yaw
  setCell (setCell (setCell (setCell (setCell (setCell (setCell (setCell
    (setCell (setCell (setCell (setCell (setCell (setCell (setCell r
      "vx" (valOfOpt ovx)) "vy" (valOfOpt ovy)) "yaw_rate" (valOfOpt oyaw))
      "vx" (Val.num vx)) "vy" (Val.num vy)) "yaw_rate" (Val.num yaw))
      "steering_angle" (Val.num st))
      "body_slip_angle" (Val.num body)) "body_slip_angle" (Val.num body))
      "slip_angle_front" (Val.num front)) "slip_angle_rear" (Val.num rear))
      "slip_angle_front_deg" (Val.num (degrees front)))
      "slip_angle_rear_deg" (Val.num (degrees rear)))
      "body_slip_angle_deg" (Val.num (degrees body)))
    "balance" (Val.num (degrees front - degrees rear))

/-- The decoded, zero-defaulted longitudinal velocity of a row. -/
noncomputable def rowVx (r : Row) : ℝ :=
  (decodeCell (getCell r "VelocityX")).getD 0

/-- The decoded, zero-defaulted lateral velocity of a row. -/
noncomputable def rowVy (r : Row) : ℝ :=
  (decodeCell (getCell r "VelocityY")).getD 0

/-- The decoded, zero-defaulted yaw rate of a row. -/
noncomputable def rowYaw (r : Row) : ℝ :=
  (decodeCell (getCell r "YawRate")).getD 0

/-- The road-wheel angle of a row: steering wheel angle divided by the
steering ratio, with no other conversion. -/
noncomputable def rowSteer (c : SlipAngleCalculator) (r : Row) : ℝ :=
  asNum (getCell r "SteeringWheelAngle") / c.steering_ratio

/-- The columns `calculate_slip_angles` writes. -/
def derivedCols : List String :=
  ["vx", "vy", "yaw_rate", "steering_angle", "body_slip_angle",
   "slip_angle_front", "slip_angle_rear", "slip_angle_front_deg",
   "slip_angle_rear_deg", "body_slip_angle_deg", "balance"]

/-! ## Statistics Reducer (`print_statistics`) -/

/-- The filter `df[df['Speed'] > 5]`: the moving-sample filter with its fixed 5 m/s
threshold. -/
noncomputable def movingRows (df : List Row) : List Row :=
  df.filter (fun r => decide (5 < asNum (getCell r "Speed")))

/-- Pandas `series.mean()`. -/
noncomputable def listMean (l : List ℝ) : ℝ :=
  l.sum / l.length

/-- Pandas `series.std()` (sample standard deviation, `ddof = 1`). -/
noncomputable def listStd (l : List ℝ) : ℝ :=
  Real.sqrt ((l.map (fun x => (x - listMean l) ^ 2)).sum / ((l.length : ℝ) - 1))

/-- Pandas `series.max()` on a non-empty series (`0` supplied for the empty case
the source never reaches). -/
noncomputable def listMax : List ℝ → ℝ
  | [] => 0
  | x :: xs => xs.foldl max x

/-- Pandas `series.min()` on a non-empty series. -/
noncomputable def listMin : List ℝ → ℝ
  | [] => 0
  | x :: xs => xs.foldl min x

/-- Pandas `series.abs().quantile(0.95)` with linear interpolation between
order statistics. -/
noncomputable def quantileAbs95 (l : List ℝ) : ℝ :=
  let s := (l.map (fun x => |x|)).insertionSort (fun a b => a ≤ b)
  let h : ℝ := 0.95 * ((l.length : ℝ) - 1)
  let lo := ⌊h⌋₊
  let hi := ⌈h⌉₊
  s.getD lo 0 + (h - (lo : ℝ)) * (s.getD hi 0 - s.getD lo 0)

/-- The source expression `(df_moving['balance'] > 0.5).sum() / len(df_moving) * 100`. -/
noncomputable def understeer_pct (m : List Row) : ℝ :=
  ((m.filter (fun r => decide (0.5 < asNum (getCell r "balance")))).length : ℝ)
    / (m.length : ℝ) * 100

/-- The source expression `(df_moving['balance'] < -0.5).sum() / len(df_moving) * 100`. -/
noncomputable def oversteer_pct (m : List Row) : ℝ :=
  ((m.filter (fun r => decide (asNum (getCell r "balance") < -0.5))).length : ℝ)
    / (m.length : ℝ) * 100

/-- The source expression `neutral_pct = 100 - understeer_pct - oversteer_pct`. -/
noncomputable def neutral_pct (m : List Row) : ℝ :=
  100 - understeer_pct m - oversteer_pct m

/-- The six per-column metrics of the statistics table. -/
structure SlipStats where
  mean : ℝ
  std : ℝ
  max_abs : ℝ
  p95_abs : ℝ
  max_pos : ℝ
  max_neg : ℝ

/-- The report `print_statistics` prints for a non-empty moving set. -/
structure BalanceReport where
  front : SlipStats
  rear : SlipStats
  balance_mean : ℝ
  understeer_time_pct : ℝ
  oversteer_time_pct : ℝ
  neutral_time_pct : ℝ

/-- The metrics table of `print_statistics` for one slip-angle column. -/
noncomputable def slipStatsOf (l : List ℝ) : SlipStats :=
  { mean := listMean l
    std := listStd l
    max_abs := listMax (l.map (fun x => |x|))
    p95_abs := quantileAbs95 l
    max_pos := listMax l
    max_neg := listMin l }

/-- The source `SlipAngleCalculator.print_statistics`: filter to moving samples; on an
empty filtered set report nothing (`none`, the "insufficient data" state)
and skip all computation; otherwise produce the statistics it prints. -/
noncomputable def print_statistics (df : List Row) : Option BalanceReport :=
  let m := movingRows df
  if m.length = 0 then none
  else
    some { front := slipStatsOf (m.map (fun r => asNum (getCell r "slip_angle_front_deg")))
           rear := slipStatsOf (m.map (fun r => asNum (getCell r "slip_angle_rear_deg")))
           balance_mean := listMean (m.map (fun r => asNum (getCell r "balance")))
           understeer_time_pct := understeer_pct m
           oversteer_time_pct := oversteer_pct m
           neutral_time_pct := neutral_pct m }

/-! ## Helper lemmas: cells and the column/row correspondence -/

theorem getCell_setCell_self (r : Row) (k : String) (v : Val) :
    getCell (setCell r k v) k = v := by
  simp [getCell, setCell]

theorem getCell_setCell_ne (r : Row) (k k' : String) (v : Val) (h : k' ≠ k) :
    getCell (setCell r k v) k' = getCell r k' := by
  simp [getCell, setCell, h]

theorem fillnaZero_valOfOpt (o : Option ℝ) :
    fillnaZero (valOfOpt o) = Val.num (o.getD 0) := by
  cases o <;> rfl

theorem asNum_num (x : ℝ) : asNum (Val.num x) = x :=
  rfl

theorem fillnaZero_num (x : ℝ) : fillnaZero (Val.num x) = Val.num x :=
  rfl

theorem setColumn_map_col (df : List Row) (k k' : String) (f : Val → Val) :
    setColumn df k ((getColumn df k').map f)
      = df.map (fun r => setCell r k (f (getCell r k'))) := by
  induction df with
  | nil => rfl
  | cons r rs ih => simpa [setColumn, getColumn] using ih

theorem setColumn_zip_col (df : List Row) (k k1 k2 : String) (q : Val → Val → Val) :
    setColumn df k (List.zipWith q (getColumn df k1) (getColumn df k2))
      = df.map (fun r => setCell r k (q (getCell r k1) (getCell r k2))) := by
  induction df with
  | nil => rfl
  | cons r rs ih => simpa [setColumn, getColumn] using ih

theorem setColumn_front_col (c : SlipAngleCalculator) (df : List Row)
    (k a b d e : String) :
    setColumn df k ((calc_front_slip c
        ((getColumn df a).map asNum) ((getColumn df b).map asNum)
        ((getColumn df d).map asNum) ((getColumn df e).map asNum)).map Val.num)
      = df.map (fun r => setCell r k (Val.num (front_slip_sample c
          (asNum (getCell r a)) (asNum (getCell r b))
          (asNum (getCell r d)) (asNum (getCell r e))))) := by
  induction df with
  | nil => rfl
  | cons r rs ih => simpa [setColumn, getColumn, calc_front_slip, zipWith4R] using ih

theorem setColumn_rear_col (c : SlipAngleCalculator) (df : List Row)
    (k a b d : String) :
    setColumn df k ((calc_rear_slip c
        ((getColumn df a).map asNum) ((getColumn df b).map asNum)
        ((getColumn df d).map asNum)).map Val.num)
      = df.map (fun r => setCell r k (Val.num (rear_slip_sample c
          (asNum (getCell r a)) (asNum (getCell r b)) (asNum (getCell r d))))) := by
  induction df with
  | nil => rfl
  | cons r rs ih => simpa [setColumn, getColumn, calc_rear_slip, zipWith3R] using ih

set_option maxHeartbeats 1000000 in
/-- The whole-column computation is the per-row computation mapped over the
rows. -/
theorem calculate_eq_map (c : SlipAngleCalculator) (df : List Row) :
    calculate_slip_angles c df = df.map (augment_row c) := by
  simp only [calculate_slip_angles, setColumn_map_col, setColumn_zip_col,
    setColumn_front_col, setColumn_rear_col, List.map_map]
  refine List.map_congr_left fun r _ => ?_
  simp [Function.comp, augment_row, getCell, setCell,
    fillnaZero_valOfOpt, fillnaZero_num, asNum_num]

/-! ### Reading back the derived cells of an augmented row -/

theorem augment_row_vx (c : SlipAngleCalculator) (r : Row) :
    getCell (augment_row c r) "vx" = Val.num (rowVx r) := by
  simp [augment_row, getCell, setCell, rowVx, fillnaZero_valOfOpt]

theorem augment_row_vy (c : SlipAngleCalculator) (r : Row) :
    getCell (augment_row c r) "vy" = Val.num (rowVy r) := by
  simp [augment_row, getCell, setCell, rowVy, fillnaZero_valOfOpt]

theorem augment_row_yaw_rate (c : SlipAngleCalculator) (r : Row) :
    getCell (augment_row c r) "yaw_rate" = Val.num (rowYaw r) := by
  simp [augment_row, getCell, setCell, rowYaw, fillnaZero_valOfOpt]

theorem augment_row_steering_angle (c : SlipAngleCalculator) (r : Row) :
    getCell (augment_row c r) "steering_angle" = Val.num (rowSteer c r) := by
  simp [augment_row, getCell, setCell, rowSteer]

theorem augment_row_body_slip (c : SlipAngleCalculator) (r : Row) :
    getCell (augment_row c r) "body_slip_angle"
      = Val.num (atan2 (rowVy r) (rowVx r)) := by
  simp [augment_row, getCell, setCell, rowVx, rowVy, fillnaZero_num]

theorem augment_row_front_slip (c : SlipAngleCalculator) (r : Row) :
    getCell (augment_row c r) "slip_angle_front"
      = Val.num (front_slip_sample c (rowVx r) (rowVy r) (rowYaw r) (rowSteer c r)) := by
  simp [augment_row, getCell, setCell, rowVx, rowVy, rowYaw, rowSteer]

theorem augment_row_rear_slip (c : SlipAngleCalculator) (r : Row) :
    getCell (augment_row c r) "slip_angle_rear"
      = Val.num (rear_slip_sample c (rowVx r) (rowVy r) (rowYaw r)) := by
  simp [augment_row, getCell, setCell, rowVx, rowVy, rowYaw]

theorem augment_row_front_deg (c : SlipAngleCalculator) (r : Row) :
    getCell (augment_row c r) "slip_angle_front_deg"
      = Val.num (degrees (front_slip_sample c (rowVx r) (rowVy r) (rowYaw r) (rowSteer c r))) := by
  simp [augment_row, getCell, setCell, rowVx, rowVy, rowYaw, rowSteer]

theorem augment_row_rear_deg (c : SlipAngleCalculator) (r : Row) :
    getCell (augment_row c r) "slip_angle_rear_deg"
      = Val.num (degrees (rear_slip_sample c (rowVx r) (rowVy r) (rowYaw r))) := by
  simp [augment_row, getCell, setCell, rowVx, rowVy, rowYaw]

theorem augment_row_body_deg (c : SlipAngleCalculator) (r : Row) :
    getCell (augment_row c r) "body_slip_angle_deg"
      = Val.num (degrees (atan2 (rowVy r) (rowVx r))) := by
  simp [augment_row, getCell, setCell, rowVx, rowVy]

theorem augment_row_balance (c : SlipAngleCalculator) (r : Row) :
    getCell (augment_row c r) "balance"
      = Val.num (degrees (front_slip_sample c (rowVx r) (rowVy r) (rowYaw r) (rowSteer c r))
          - degrees (rear_slip_sample c (rowVx r) (rowVy r) (rowYaw r))) := by
  simp [augment_row, getCell, setCell, rowVx, rowVy, rowYaw, rowSteer]

/-- A cell whose column is not one of the derived columns is untouched by
the per-row augmentation. -/
theorem augment_row_preserves (c : SlipAngleCalculator) (r : Row) (k : String)
    (h : ¬ k ∈ derivedCols) : getCell (augment_row c r) k = getCell r k := by
  simp only [derivedCols, List.mem_cons, List.not_mem_nil, or_false, not_or] at h
  obtain ⟨h1, h2, h3, h4, h5, h6, h7, h8, h9, h10, h11⟩ := h
  simp [augment_row, getCell, setCell, h1, h2, h3, h4, h5, h6, h7, h8, h9, h10, h11]

/-! ### Claims C9 and C10 -/

/-- Claim C9: the Slip Angle Calculator is a pure function of the input
rows and the immutable geometry — the whole-table computation equals a
per-row map, so re-running it on the same input produces the identical
output, there is no hidden state, and each sample's result depends only on
that sample's row and the geometry. -/
theorem calculator_pure_per_sample (c : SlipAngleCalculator) (df : List Row) :
    calculate_slip_angles c df = df.map (augment_row c) :=
  calculate_eq_map c df

/-- Claim C10: augmentation only writes the derived columns: every column
outside `derivedCols` (in particular the original telemetry columns) reads
back unchanged, and the values written to the derived columns do not
depend on any pre-existing cells of those derived columns (they would be
overwritten), only on the cells outside them. -/
theorem augmentation_frame_effect :
    (∀ (c : SlipAngleCalculator) (df : List Row) (k : String), ¬ k ∈ derivedCols →
        getColumn (calculate_slip_angles c df) k = getColumn df k)
  ∧ (∀ (c : SlipAngleCalculator) (r r' : Row),
        (∀ k, ¬ k ∈ derivedCols → getCell r k = getCell r' k) →
        ∀ k, getCell (augment_row c r) k = getCell (augment_row c r') k) := by
  constructor
  · intro c df k hk
    rw [calculate_eq_map, getColumn, getColumn, List.map_map]
    refine List.map_congr_left fun r _ => ?_
    exact augment_row_preserves c r k hk
  · intro c r r' h k
    have hX : getCell r "VelocityX" = getCell r' "VelocityX" := h _ (by decide)
    have hY : getCell r "VelocityY" = getCell r' "VelocityY" := h _ (by decide)
    have hW : getCell r "YawRate" = getCell r' "YawRate" := h _ (by decide)
    have hS : getCell r "SteeringWheelAngle" = getCell r' "SteeringWheelAngle" :=
      h _ (by decide)
    by_cases hk : k ∈ derivedCols
    · fin_cases hk <;>
        simp [augment_row_vx, augment_row_vy, augment_row_yaw_rate,
          augment_row_steering_angle, augment_row_body_slip, augment_row_front_slip,
          augment_row_rear_slip, augment_row_front_deg, augment_row_rear_deg,
          augment_row_body_deg, augment_row_balance,
          rowVx, rowVy, rowYaw, rowSteer, hX, hY, hW, hS]
    · rw [augment_row_preserves c r k hk, augment_row_preserves c r' k hk]
      exact h k hk

/-- Witness for C10 at a concrete table: the `SessionTime` column survives
augmentation unchanged. -/
theorem augmentation_frame_effect_witness :
    getColumn (calculate_slip_angles (mkSlipAngleCalculator 2.7 1.6 0.45 12.0)
        [[("SessionTime", Val.num 1)]]) "SessionTime"
      = getColumn [[("SessionTime", Val.num 1)]] "SessionTime" :=
  augmentation_frame_effect.1 _ _ _ (by decide)

/-! ### Claim C7: the Statistics Reducer's empty guard -/

/-- Claim C7: `print_statistics` filters to samples with speed strictly
above the fixed 5 m/s threshold (the `movingRows` filter), and it reports
the defined "insufficient data" state (`none`) exactly when that filtered
set is empty — it never divides by zero there, because it skips all
computation. -/
theorem statistics_insufficient_data (df : List Row) :
    print_statistics df = none ↔ movingRows df = [] := by
  simp only [print_statistics]
  split <;> simp_all [List.length_eq_zero]

/-- Witness for C7: a table whose single sample moves at 1 m/s has an
empty moving set, and the reducer reports the insufficient-data state. -/
theorem statistics_insufficient_data_witness :
    print_statistics [[("Speed", Val.num 1)]] = none := by
  refine (statistics_insufficient_data _).mpr ?_
  norm_num [movingRows, List.filter_cons, getCell, asNum]

/-! ### Claim C8: balance classification percentages -/

theorem length_filter_partition (l : List Row) (p q : Row → Bool)
    (hpq : ∀ r, p r = true → q r = false) :
    (l.filter p).length + (l.filter q).length
      + (l.filter (fun r => !p r && !q r)).length = l.length := by
  induction l with
  | nil => simp
  | cons r rs ih =>
    by_cases hp : p r = true
    · have hq := hpq r hp
      simp [List.filter_cons, hp, hq]
      omega
    · by_cases hq : q r = true <;> simp [List.filter_cons, hp, hq] <;> omega

/-- Claim C8: on a non-empty filtered set, a sample counts as understeer
iff `balance > 0.5`, as oversteer iff `balance < -0.5`, and the neutral
percentage — computed by the source as `100 - understeer% - oversteer%` —
equals the direct percentage of the remaining (neutral) samples, so the
three reported percentages sum to `100.0`, in particular to within
`1e-9`. -/
theorem balance_classification_percentages (df : List Row)
    (h : movingRows df ≠ []) :
    understeer_pct (movingRows df) + oversteer_pct (movingRows df)
        + neutral_pct (movingRows df) = 100
  ∧ |understeer_pct (movingRows df) + oversteer_pct (movingRows df)
        + neutral_pct (movingRows df) - 100| ≤ 1e-9
  ∧ neutral_pct (movingRows df)
      = (((movingRows df).filter (fun r =>
            !(decide (0.5 < asNum (getCell r "balance")))
              && !(decide (asNum (getCell r "balance") < -0.5)))).length : ℝ)
          / ((movingRows df).length : ℝ) * 100 := by
  have hsum : understeer_pct (movingRows df) + oversteer_pct (movingRows df)
      + neutral_pct (movingRows df) = 100 := by
    simp only [neutral_pct]
    ring
  refine ⟨hsum, by rw [hsum]; norm_num, ?_⟩
  have hlen : (movingRows df).length ≠ 0 :=
    fun h0 => h (List.length_eq_zero.mp h0)
  have hn : ((movingRows df).length : ℝ) ≠ 0 := Nat.cast_ne_zero.mpr hlen
  have hpart := length_filter_partition (movingRows df)
    (fun r => decide (0.5 < asNum (getCell r "balance")))
    (fun r => decide (asNum (getCell r "balance") < -0.5))
    (fun r hp => by
      rw [decide_eq_true_eq] at hp
      exact decide_eq_false (by linarith))
  have hcast : ((((movingRows df).filter
          (fun r => decide (0.5 < asNum (getCell r "balance")))).length : ℝ)
        + (((movingRows df).filter
          (fun r => decide (asNum (getCell r "balance") < -0.5))).length : ℝ)
        + (((movingRows df).filter (fun r =>
            !(decide (0.5 < asNum (getCell r "balance")))
              && !(decide (asNum (getCell r "balance") < -0.5)))).length : ℝ))
      = ((movingRows df).length : ℝ) := by
    exact_mod_cast hpart
  simp only [neutral_pct, understeer_pct, oversteer_pct]
  field_simp
  linarith

/-- Witness for C8 at a concrete table with one understeer, one oversteer
and one neutral moving sample. -/
theorem balance_classification_percentages_witness :
    movingRows [[("Speed", Val.num 10), ("balance", Val.num 1)],
        [("Speed", Val.num 10), ("balance", Val.num (-1))],
        [("Speed", Val.num 10), ("balance", Val.num 0)]] ≠ []
  ∧ understeer_pct (movingRows [[("Speed", Val.num 10), ("balance", Val.num 1)],
        [("Speed", Val.num 10), ("balance", Val.num (-1))],
        [("Speed", Val.num 10), ("balance", Val.num 0)]])
      + oversteer_pct (movingRows [[("Speed", Val.num 10), ("balance", Val.num 1)],
        [("Speed", Val.num 10), ("balance", Val.num (-1))],
        [("Speed", Val.num 10), ("balance", Val.num 0)]])
      + neutral_pct (movingRows [[("Speed", Val.num 10), ("balance", Val.num 1)],
        [("Speed", Val.num 10), ("balance", Val.num (-1))],
        [("Speed", Val.num 10), ("balance", Val.num 0)]]) = 100 := by
  have h : movingRows [[("Speed", Val.num 10), ("balance", Val.num 1)],
      [("Speed", Val.num 10), ("balance", Val.num (-1))],
      [("Speed", Val.num 10), ("balance", Val.num 0)]] ≠ [] := by
    norm_num [movingRows, List.filter_cons, getCell, asNum]
    exact List.cons_ne_nil _ _
  exact ⟨h, (balance_classification_percentages _ h).1⟩

/-! ### Claim C5: the low-speed guard -/

/-- Claim C5: for `|vx| ≤ 0.5` both slip angles are exactly `0`, whatever
the other signals are; the guarded branch (the one dividing by `vx`) is
not taken. -/
theorem low_speed_guard_zero (c : SlipAngleCalculator)
    (vx vy yaw_rate steering_angle : ℝ) (h : |vx| ≤ 0.5) :
    front_slip_sample c vx vy yaw_rate steering_angle = 0
  ∧ rear_slip_sample c vx vy yaw_rate = 0 := by
  have hlt : ¬ 0.5 < |vx| := not_lt.mpr h
  constructor <;> simp [front_slip_sample, rear_slip_sample, hlt]

/-- Witness for C5 at the boundary speed `vx = 0.5` with non-zero lateral
velocity, yaw rate and steering. -/
theorem low_speed_guard_zero_witness :
    |(0.5 : ℝ)| ≤ 0.5
  ∧ front_slip_sample (mkSlipAngleCalculator 2.7 1.6 0.45 12.0) 0.5 3 2 7 = 0
  ∧ rear_slip_sample (mkSlipAngleCalculator 2.7 1.6 0.45 12.0) 0.5 3 2 = 0 := by
  have h : |(0.5 : ℝ)| ≤ 0.5 := by
    rw [abs_of_pos (by norm_num : (0 : ℝ) < 0.5)]
  obtain ⟨h1, h2⟩ := low_speed_guard_zero (mkSlipAngleCalculator 2.7 1.6 0.45 12.0) 0.5 3 2 7 h
  exact ⟨h, h1, h2⟩

/-! ### Claim C6: rear and body slip formulas -/

/-- Claim C6: for a sample with `|vx| > 0.5` the rear slip angle is
`-atan2(vy - yawRate * wheelbaseRear, vx)` with
`wheelbaseRear = wheelbase * (1 - cgPositionFraction)`; the body slip
angle is `atan2(vy, vx)`, which is `0` (not NaN) at the origin. -/
theorem rear_and_body_slip_formulas (w tw cg sr : ℝ) (r : Row)
    (h : 0.5 < |rowVx r|) :
    getCell (augment_row (mkSlipAngleCalculator w tw cg sr) r) "slip_angle_rear"
      = Val.num (-(atan2 (rowVy r - rowYaw r * (w * (1 - cg))) (rowVx r)))
  ∧ getCell (augment_row (mkSlipAngleCalculator w tw cg sr) r) "body_slip_angle"
      = Val.num (atan2 (rowVy r) (rowVx r))
  ∧ atan2 0 0 = 0 := by
  refine ⟨?_, augment_row_body_slip _ r, ?_⟩
  · rw [augment_row_rear_slip]
    simp [rear_slip_sample, mkSlipAngleCalculator, h]
  · simp [atan2]

/-- Witness for C6 at a concrete row travelling at 20 m/s. -/
theorem rear_and_body_slip_formulas_witness :
    0.5 < |rowVx [("VelocityX", Val.num 20), ("VelocityY", Val.num 1),
        ("YawRate", Val.num 0)]|
  ∧ getCell (augment_row (mkSlipAngleCalculator 2.7 1.6 0.45 12.0)
        [("VelocityX", Val.num 20), ("VelocityY", Val.num 1), ("YawRate", Val.num 0)])
        "slip_angle_rear"
      = Val.num (-(atan2
          (rowVy [("VelocityX", Val.num 20), ("VelocityY", Val.num 1), ("YawRate", Val.num 0)]
            - rowYaw [("VelocityX", Val.num 20), ("VelocityY", Val.num 1), ("YawRate", Val.num 0)]
              * (2.7 * (1 - 0.45)))
          (rowVx [("VelocityX", Val.num 20), ("VelocityY", Val.num 1), ("YawRate", Val.num 0)]))) := by
  have h20 : rowVx [("VelocityX", Val.num 20), ("VelocityY", Val.num 1),
      ("YawRate", Val.num 0)] = 20 := by
    simp [rowVx, getCell, decodeCell]
  have h : 0.5 < |rowVx [("VelocityX", Val.num 20), ("VelocityY", Val.num 1),
      ("YawRate", Val.num 0)]| := by
    rw [h20, abs_of_pos] <;> norm_num
  exact ⟨h, (rear_and_body_slip_formulas 2.7 1.6 0.45 12.0 _ h).1⟩

/-! ### Claim C1: the front-slip steering term -/

/-- Claim C1 counterexample: on the sample `vx = 20, vy = 1,
yawRate = 0.1, steeringWheelAngle = 24` with the default geometry, the
front slip angle computed by the source is NOT
`radians(24 / 12) - bodySlipAngle - yawRate * wheelbaseFront / vx`: the
source never converts the steering quotient to radians. -/
theorem front_slip_no_radian_conversion_cex :
    getCell (augment_row (mkSlipAngleCalculator 2.7 1.6 0.45 12.0)
        [("VelocityX", Val.num 20), ("VelocityY", Val.num 1),
         ("YawRate", Val.num 0.1), ("SteeringWheelAngle", Val.num 24)])
        "slip_angle_front"
      ≠ Val.num (24 / 12 * (Real.pi / 180) - atan2 1 20
          - 0.1 * (2.7 * 0.45) / 20) := by
  rw [augment_row_front_slip]
  have hvx : rowVx [("VelocityX", Val.num 20), ("VelocityY", Val.num 1),
      ("YawRate", Val.num 0.1), ("SteeringWheelAngle", Val.num 24)] = 20 := by
    simp [rowVx, getCell, decodeCell]
  have hvy : rowVy [("VelocityX", Val.num 20), ("VelocityY", Val.num 1),
      ("YawRate", Val.num 0.1), ("SteeringWheelAngle", Val.num 24)] = 1 := by
    simp [rowVy, getCell, decodeCell]
  have hyaw : rowYaw [("VelocityX", Val.num 20), ("VelocityY", Val.num 1),
      ("YawRate", Val.num 0.1), ("SteeringWheelAngle", Val.num 24)] = 0.1 := by
    simp [rowYaw, getCell, decodeCell]
  have hst : rowSteer (mkSlipAngleCalculator 2.7 1.6 0.45 12.0)
      [("VelocityX", Val.num 20), ("VelocityY", Val.num 1),
       ("YawRate", Val.num 0.1), ("SteeringWheelAngle", Val.num 24)] = 24 / 12 := by
    simp [rowSteer, getCell, asNum, mkSlipAngleCalculator]
    norm_num
  rw [hvx, hvy, hyaw, hst]
  rw [front_slip_sample, if_pos (by rw [abs_of_pos] <;> norm_num)]
  intro hEq
  simp only [Val.num.injEq, mkSlipAngleCalculator] at hEq
  have hpi := Real.pi_lt_d2
  have hpi2 := Real.pi_gt_three
  nlinarith [hEq]

/-- Claim C1 (amended): for `|vx| > 0.5` the front slip angle is
`steeringWheelAngle / steeringRatio - bodySlipAngle -
yawRate * wheelbaseFront / vx`, where the steering quotient is used
exactly as produced by the division — no degree-to-radian conversion is
applied to it before it is combined with the radian-valued terms. -/
theorem front_slip_formula_unconverted (c : SlipAngleCalculator) (r : Row)
    (h : 0.5 < |rowVx r|) :
    getCell (augment_row c r) "slip_angle_front"
      = Val.num (asNum (getCell r "SteeringWheelAngle") / c.steering_ratio
          - atan2 (rowVy r) (rowVx r) - rowYaw r * c.wheelbase_front / rowVx r) := by
  rw [augment_row_front_slip]
  simp [front_slip_sample, rowSteer, h]

/-- Witness for the amended C1 at a concrete row. -/
theorem front_slip_formula_unconverted_witness :
    0.5 < |rowVx [("VelocityX", Val.num 20), ("VelocityY", Val.num 2),
        ("YawRate", Val.num 0), ("SteeringWheelAngle", Val.num 24)]|
  ∧ getCell (augment_row (mkSlipAngleCalculator 2.7 1.6 0.45 12.0)
        [("VelocityX", Val.num 20), ("VelocityY", Val.num 2),
         ("YawRate", Val.num 0), ("SteeringWheelAngle", Val.num 24)])
        "slip_angle_front"
      = Val.num (asNum (getCell [("VelocityX", Val.num 20), ("VelocityY", Val.num 2),
            ("YawRate", Val.num 0), ("SteeringWheelAngle", Val.num 24)]
            "SteeringWheelAngle")
            / (mkSlipAngleCalculator 2.7 1.6 0.45 12.0).steering_ratio
          - atan2 (rowVy [("VelocityX", Val.num 20), ("VelocityY", Val.num 2),
              ("YawRate", Val.num 0), ("SteeringWheelAngle", Val.num 24)])
            (rowVx [("VelocityX", Val.num 20), ("VelocityY", Val.num 2),
              ("YawRate", Val.num 0), ("SteeringWheelAngle", Val.num 24)])
          - rowYaw [("VelocityX", Val.num 20), ("VelocityY", Val.num 2),
              ("YawRate", Val.num 0), ("SteeringWheelAngle", Val.num 24)]
            * (mkSlipAngleCalculator 2.7 1.6 0.45 12.0).wheelbase_front
            / rowVx [("VelocityX", Val.num 20), ("VelocityY", Val.num 2),
              ("YawRate", Val.num 0), ("SteeringWheelAngle", Val.num 24)]) := by
  have h20 : rowVx [("VelocityX", Val.num 20), ("VelocityY", Val.num 2),
      ("YawRate", Val.num 0), ("SteeringWheelAngle", Val.num 24)] = 20 := by
    simp [rowVx, getCell, decodeCell]
  have h : 0.5 < |rowVx [("VelocityX", Val.num 20), ("VelocityY", Val.num 2),
      ("YawRate", Val.num 0), ("SteeringWheelAngle", Val.num 24)]| := by
    rw [h20, abs_of_pos] <;> norm_num
  exact ⟨h, front_slip_formula_unconverted (mkSlipAngleCalculator 2.7 1.6 0.45 12.0) _ h⟩

/-! ### Claim C2: constructor validation -/

/-- Claim C2 counterexample: constructing with `cgPositionFraction = 1.2`
does not raise `ConfigurationError` — the source constructor performs no
validation and returns a calculator (whose rear wheelbase is negative),
while the spec-modelled constructor rejects the same parameters. -/
theorem init_accepts_cg_out_of_range_cex :
    slipAngleCalculator_init 2.7 1.6 1.2 12.0
        = Except.ok (mkSlipAngleCalculator 2.7 1.6 1.2 12.0)
  ∧ vehicleGeometry_spec_init 2.7 1.6 1.2 12.0
        = Except.error ConfigurationError.invalidGeometry := by
  refine ⟨rfl, ?_⟩
  rw [vehicleGeometry_spec_init, if_neg]
  exact fun hc => absurd hc.2.2.2.2 (by norm_num)

/-- Claim C2 (amended): construction never fails, for any parameter values
whatsoever — the source constructor performs no validation — and on
parameters satisfying the spec's validity conditions it agrees with the
spec-modelled constructor. -/
theorem init_never_fails (w tw cg sr : ℝ) :
    (∃ c, slipAngleCalculator_init w tw cg sr = Except.ok c)
  ∧ (0 < w → 0 < tw → 0 < sr → 0 < cg → cg < 1 →
      vehicleGeometry_spec_init w tw cg sr = slipAngleCalculator_init w tw cg sr) := by
  refine ⟨⟨_, rfl⟩, fun h1 h2 h3 h4 h5 => ?_⟩
  rw [vehicleGeometry_spec_init, if_pos ⟨h1, h2, h3, h4, h5⟩]
  rfl

/-- Witness for the amended C2 at the default parameters. -/
theorem init_never_fails_witness :
    vehicleGeometry_spec_init 2.7 1.6 0.45 12.0
      = slipAngleCalculator_init 2.7 1.6 0.45 12.0 :=
  (init_never_fails 2.7 1.6 0.45 12.0).2 (by norm_num) (by norm_num) (by norm_num)
    (by norm_num) (by norm_num)

/-! ### Claims C3 and C4: the Array Signal Decoder -/

theorem dropWhile_eq_self_of_all {α : Type _} (p : α → Bool) (l : List α)
    (h : ∀ c ∈ l, p c = false) : l.dropWhile p = l := by
  induction l with
  | nil => rfl
  | cons a l ih =>
    rw [List.dropWhile_cons]
    simp [h a (List.mem_cons_self a l)]

theorem pyStrip_wrap (mid : List Char)
    (h : ∀ c ∈ mid, stripChars.contains c = false) :
    pyStrip stripChars ('[' :: (mid ++ [']'])) = mid := by
  rw [pyStrip]
  rw [List.dropWhile_cons]
  rw [if_pos (by decide)]
  cases mid with
  | nil => rfl
  | cons m ms =>
    rw [List.cons_append, List.dropWhile_cons,
      if_neg (by rw [h m (List.mem_cons_self m ms)]; exact Bool.false_ne_true)]
    rw [show m :: (ms ++ [']']) = (m :: ms) ++ [']'] by simp, List.reverse_append]
    rw [show ([']'] : List Char).reverse = [']'] from rfl, List.singleton_append]
    rw [List.dropWhile_cons, if_pos (by decide)]
    rw [dropWhile_eq_self_of_all _ _ (fun c hc => h c (List.mem_reverse.mp hc))]
    exact List.reverse_reverse _

theorem removeQuotes_eq_self (l : List Char) (h : ∀ c ∈ l, c ≠ '"') :
    removeQuotes l = l := by
  rw [removeQuotes, List.filter_eq_self]
  intro a ha
  simpa using h a ha

theorem splitSemi_no_semi (t : List Char) (h : ∀ c ∈ t, c ≠ ';') :
    splitSemi t = [t] := by
  induction t with
  | nil => rfl
  | cons c r ih =>
    rw [splitSemi]
    simp only [h c (List.mem_cons_self c r), if_false]
    rw [ih (fun c' hc' => h c' (List.mem_cons_of_mem c hc'))]
    rfl

theorem splitSemi_append (t rest : List Char) (h : ∀ c ∈ t, c ≠ ';') :
    splitSemi (t ++ ';' :: rest) = t :: splitSemi rest := by
  induction t with
  | nil => simp [splitSemi]
  | cons c ts ih =>
    rw [List.cons_append, splitSemi]
    simp only [h c (List.mem_cons_self c ts), if_false]
    rw [ih (fun c' hc' => h c' (List.mem_cons_of_mem c hc'))]
    rfl

theorem mem_joinSemi (toks : List (List Char)) (c : Char)
    (hc : c ∈ joinSemi toks) : c = ';' ∨ ∃ t ∈ toks, c ∈ t := by
  induction toks with
  | nil => simp [joinSemi] at hc
  | cons t ts ih =>
    cases ts with
    | nil =>
      simp only [joinSemi] at hc
      exact Or.inr ⟨t, List.mem_cons_self t [], hc⟩
    | cons t' ts' =>
      rw [joinSemi] at hc
      rcases List.mem_append.mp hc with h1 | h2
      · exact Or.inr ⟨t, List.mem_cons_self _ _, h1⟩
      · rcases List.mem_cons.mp h2 with h3 | h4
        · exact Or.inl h3
        · rcases ih h4 with h5 | ⟨u, hu, hcu⟩
          · exact Or.inl h5
          · exact Or.inr ⟨u, List.mem_cons_of_mem t hu, hcu⟩

theorem splitSemi_joinSemi (toks : List (List Char)) (hne : toks ≠ [])
    (h : ∀ t ∈ toks, ∀ c ∈ t, c ≠ ';') :
    splitSemi (joinSemi toks) = toks := by
  induction toks with
  | nil => exact absurd rfl hne
  | cons t ts ih =>
    cases ts with
    | nil =>
      rw [joinSemi]
      exact splitSemi_no_semi t (h t (List.mem_cons_self t []))
    | cons t' ts' =>
      rw [joinSemi, splitSemi_append t _ (h t (List.mem_cons_self _ _))]
      rw [ih (List.cons_ne_nil t' ts')
        (fun u hu => h u (List.mem_cons_of_mem t hu))]

theorem floatChar_ne (c d : Char) (h : isFloatChar c = true)
    (hd : isFloatChar d = false) : c ≠ d := by
  intro e
  rw [e, hd] at h
  exact Bool.false_ne_true h

theorem floatChar_not_ws (c : Char) (h : isFloatChar c = true) :
    c.isWhitespace = false := by
  by_cases hw : c.isWhitespace = true
  · simp only [Char.isWhitespace] at hw
    have hd : ((c = ' ' ∨ c = '\t') ∨ c = '\r') ∨ c = '\n' := by
      simpa using hw
    rcases hd with ((e | e) | e) | e <;> rw [e] at h <;> exact absurd h (by decide)
  · exact Bool.eq_false_iff.mpr hw

theorem floatChar_not_strip (c : Char) (h : isFloatChar c = true) :
    stripChars.contains c = false := by
  have h1 : c ≠ '[' := floatChar_ne c _ h (by decide)
  have h2 : c ≠ ']' := floatChar_ne c _ h (by decide)
  have h3 : c ≠ '"' := floatChar_ne c _ h (by decide)
  simp [stripChars, h1, h2, h3]

theorem keepTok_of_floatChars (t : List Char) (hne : t ≠ [])
    (h : ∀ c ∈ t, isFloatChar c = true) : keepTok t = true := by
  cases t with
  | nil => exact absurd rfl hne
  | cons c r =>
    rw [keepTok, List.any_cons]
    have := floatChar_not_ws c (h c (List.mem_cons_self c r))
    simp [this]

theorem mapMOpt_eq_none {α β : Type _} (f : α → Option β) (l : List α) (a : α)
    (ha : a ∈ l) (hfa : f a = none) : mapMOpt f l = none := by
  induction l with
  | nil => simp at ha
  | cons b r ih =>
    rcases List.mem_cons.mp ha with e | hr
    · rw [mapMOpt, ← e, hfa]
    · rw [mapMOpt]
      cases hfb : f b with
      | none => rfl
      | some v => rw [ih hr]; rfl

theorem mapMOpt_getLast_eq {α β : Type _} (f : α → Option β) (l : List α)
    (hne : l ≠ []) (h : ∀ a ∈ l, (f a).isSome) :
    ∃ vs, mapMOpt f l = some vs ∧ vs.getLast? = f (l.getLast hne) := by
  induction l with
  | nil => exact absurd rfl hne
  | cons a r ih =>
    obtain ⟨b, hb⟩ := Option.isSome_iff_exists.mp (h a (List.mem_cons_self a r))
    cases r with
    | nil =>
      refine ⟨[b], ?_, ?_⟩
      · rw [mapMOpt, hb]; rfl
      · rw [List.getLast_singleton]
        simpa using hb.symm
    | cons a' r' =>
      obtain ⟨vs, hvs, hlast⟩ := ih (List.cons_ne_nil a' r')
        (fun x hx => h x (List.mem_cons_of_mem a hx))
      refine ⟨b :: vs, ?_, ?_⟩
      · rw [mapMOpt, hb, hvs]; rfl
      · have hvs_ne : vs ≠ [] := by
          intro e
          rw [e] at hlast
          have := h ((a' :: r').getLast (List.cons_ne_nil a' r'))
            (List.mem_cons_of_mem a (List.getLast_mem _))
          rw [← hlast] at this
          simp at this
        cases vs with
        | nil => exact absurd rfl hvs_ne
        | cons v vs' =>
          rw [List.getLast?_cons_cons, hlast, List.getLast_cons (List.cons_ne_nil a' r')]

/-- Claim C3: decoding a well-formed encoded array signal
`[v1;v2;...;vn]` whose tokens are parseable float literals returns the
parse of the last token `vn`. -/
theorem decode_returns_last_token (toks : List (List Char)) (hne : toks ≠ [])
    (htok : ∀ t ∈ toks, t ≠ [] ∧ ∀ c ∈ t, isFloatChar c = true)
    (hparse : ∀ t ∈ toks, (pyFloat? t).isSome) :
    parse_velocity_array (some ('[' :: (joinSemi toks ++ [']'])))
      = pyFloat? (toks.getLast hne) := by
  have hmid : ∀ c ∈ joinSemi toks, isFloatChar c = true ∨ c = ';' := by
    intro c hc
    rcases mem_joinSemi toks c hc with e | ⟨t, ht, hct⟩
    · exact Or.inr e
    · exact Or.inl ((htok t ht).2 c hct)
  have hstrip : pyStrip stripChars ('[' :: (joinSemi toks ++ [']'])) = joinSemi toks := by
    refine pyStrip_wrap _ (fun c hc => ?_)
    rcases hmid c hc with hf | e
    · exact floatChar_not_strip c hf
    · rw [e]; decide
  have hquotes : removeQuotes (joinSemi toks) = joinSemi toks := by
    refine removeQuotes_eq_self _ (fun c hc => ?_)
    rcases hmid c hc with hf | e
    · exact floatChar_ne c _ hf (by decide)
    · rw [e]; decide
  have hsplit : splitSemi (joinSemi toks) = toks := by
    refine splitSemi_joinSemi toks hne (fun t ht c hc => ?_)
    exact floatChar_ne c _ ((htok t ht).2 c hc) (by decide)
  have hfilter : toks.filter keepTok = toks := by
    rw [List.filter_eq_self]
    exact fun t ht => keepTok_of_floatChars t (htok t ht).1 ((htok t ht).2)
  rw [parse_velocity_array, if_neg (by simp)]
  rw [keptTokens, hstrip, hquotes, hsplit, hfilter]
  obtain ⟨vs, hvs, hlast⟩ := mapMOpt_getLast_eq pyFloat? toks hne hparse
  rw [hvs]
  exact hlast

/-- Witness for C3: decoding `[1;2.5]` yields the last value `2.5`. -/
theorem decode_returns_last_token_witness :
    parse_velocity_array (some ('[' :: (joinSemi [['1'], ['2', '.', '5']] ++ [']'])))
      = some (5 / 2) := by
  have h := decode_returns_last_token [['1'], ['2', '.', '5']] (by decide)
    (by decide) (by decide)
  rw [h]
  show pyFloat? ['2', '.', '5'] = some (5 / 2)
  simp [pyFloat?, parseMantissa, parseExpPart, natOfDigits]
  norm_num

/-- Claim C4: the decoder is total and never propagates a failure: absent
input, the empty string, the bracket-only string and any burst containing
an unparsable kept token all decode to "no value" (`none`); and when the
decode is mapped over the `VelocityX` column, a "no value" result is
substituted with the numeric default `0.0` (the `fillna(0)` step) before
the slip-angle formulas consume it. -/
theorem decode_error_policy :
    parse_velocity_array none = none
  ∧ parse_velocity_array (some []) = none
  ∧ parse_velocity_array (some ['[', ']']) = none
  ∧ (∀ s t, t ∈ keptTokens s → pyFloat? t = none →
      parse_velocity_array (some s) = none)
  ∧ (∀ (c : SlipAngleCalculator) (df : List Row),
      getColumn (calculate_slip_angles c df) "vx"
        = df.map (fun r => Val.num ((decodeCell (getCell r "VelocityX")).getD 0))) := by
  refine ⟨rfl, rfl, rfl, ?_, ?_⟩
  · intro s t ht hf
    by_cases hs : s = []
    · rw [parse_velocity_array, if_pos hs]
    · rw [parse_velocity_array, if_neg hs, mapMOpt_eq_none pyFloat? _ t ht hf]
  · intro c df
    rw [calculate_eq_map, getColumn, List.map_map]
    refine List.map_congr_left fun r _ => ?_
    simp [Function.comp, augment_row_vx, rowVx]

/-- Witness for C4: `[1;x]` contains the unparsable token `x`, so the
whole burst decodes to "no value". -/
theorem decode_error_policy_witness :
    parse_velocity_array (some ['[', '1', ';', 'x', ']']) = none :=
  decode_error_policy.2.2.2.1 ['[', '1', ';', 'x', ']'] ['x'] (by decide) (by decide)

end SlideGuide
